import Mathlib

/-!
Shallow embedding of `src/Vehicle.py`: a small vehicle taxonomy (Engine,
abstract Vehicle with identity validation, a movement-state mixin, and the
concrete kinds Motorcycle, Bus, Car, SportsCar).

Modelling conventions, uniform over the file:
- Python `ValueError` (the spec's ValidationError) is an `Except String`
  error value; a mutating method on an object of state `S` that may raise
  becomes `S → S × Except String R`: the first component is the object's
  state after the call (Python objects persist when an exception
  propagates), the second the returned value or the raised error.
- Python numbers appearing in movement state are `PyNum`: an `int` or a
  `float` (exact rational, since every arithmetic step in the source is
  addition of decimals). `PyNum.pyStr` models the f-string rendering: an
  int prints with no decimal point, an integral float prints with a
  trailing `.0` (the only float values the program ever renders).
- `datetime.now().year` and `uuid.uuid4()` are nondeterministic inputs;
  they are threaded as explicit parameters `current_year` and `vin`.
- `print(...)` notification side effects (SportsCar) are modelled as the
  returned string of the method.
- Apostrophes and brace characters inside Python message literals are
  transliterated out (e.g. the source text of the accelerate error and the
  rendering of Python list/set values in error messages); no claim depends
  on those characters.
-/

namespace VehiclePy

/-- A Python number: an `int`, or a `float` held as an exact rational. -/
inductive PyNum where
  | int : Int → PyNum
  | float : ℚ → PyNum
deriving DecidableEq

/-- The numeric value of a `PyNum`, for comparisons (`Python ==`, `<=`). -/
def PyNum.toRat : PyNum → ℚ
  | .int n => (n : ℚ)
  | .float q => q

/-- Python `+` on numbers: int + int is an int, any float makes a float. -/
def PyNum.add : PyNum → PyNum → PyNum
  | .int a, .int b => .int (a + b)
  | .int a, .float b => .float ((a : ℚ) + b)
  | .float a, .int b => .float (a + (b : ℚ))
  | .float a, .float b => .float (a + b)

/-- f-string rendering of a `PyNum`: an int prints with no decimal point;
an integral float prints with a trailing `.0` (the program only ever
renders integral floats; the non-integral branch is unused filler). -/
def PyNum.pyStr : PyNum → String
  | .int n => toString n
  | .float q => if q.den = 1 then toString q.num ++ ".0" else toString q

/-- Whether `pat` is a prefix of `s`, on character lists. -/
def isPrefixChars : List Char → List Char → Bool
  | [], _ => true
  | _ :: _, [] => false
  | a :: as, b :: bs => a == b && isPrefixChars as bs

/-- Whether `pat` occurs inside `s`, on character lists. -/
def isInfixChars (pat : List Char) : List Char → Bool
  | [] => pat.isEmpty
  | c :: rest => isPrefixChars pat (c :: rest) || isInfixChars pat rest

/-- `s` contains `pat` as a substring (Python `in` on the rendered text). -/
def containsSub (s pat : String) : Bool :=
  isInfixChars pat.data s.data

-- ----------------------------- Engine -----------------------------

/-- The `valid_types` list in `Engine.__init__`. -/
def validEngineTypes : List String := ["2-stroke", "4-stroke", "electric", "diesel"]

/-- An `Engine` value: horsepower and engine type, as set by `__init__`. -/
structure Engine where
  horsepower : Int
  engine_type : String
deriving DecidableEq

/-- `Engine.__init__`: horsepower must be positive, engine_type must be in
`valid_types`; checks run in that order and raise `ValueError`. -/
def Engine.init (horsepower : Int) (engine_type : String) : Except String Engine :=
  if horsepower ≤ 0 then
    .error "Horsepower must be positive."
  else if engine_type ∉ validEngineTypes then
    .error "Invalid engine type. Choose from: [2-stroke, 4-stroke, electric, diesel]"
  else
    .ok ⟨horsepower, engine_type⟩

-- ----------------------------- Vehicle base -----------------------------

/-- The `valid` list in `Vehicle._validate_fuel`. -/
def validFuelTypes : List String := ["petrol", "diesel", "electric"]

/-- `Vehicle._validate_nonempty`: `not value` is true exactly on the empty
string, so an empty field raises. -/
def validate_nonempty (value field : String) : Except String Unit :=
  if value = "" then .error (field ++ " cannot be empty.") else .ok ()

/-- `Vehicle._validate_year`: the year must lie in `[1900, current_year]`
where `current_year = datetime.now().year` is threaded as a parameter. -/
def validate_year (current_year year : Int) : Except String Unit :=
  if ¬ (1900 ≤ year ∧ year ≤ current_year) then .error "Invalid year." else .ok ()

/-- `Vehicle._validate_fuel`: fuel type must be one of `validFuelTypes`. -/
def validate_fuel (fuel_type : String) : Except String Unit :=
  if fuel_type ∉ validFuelTypes then
    .error "Invalid fuel type. Choose from: [petrol, diesel, electric]"
  else
    .ok ()

/-- The identity fields set by `Vehicle.__init__` on success. -/
structure VehicleId where
  brand : String
  model : String
  year : Int
  fuel_type : String
  vin : String
deriving DecidableEq

/-- `Vehicle.__init__`: runs the four validators in source order (brand,
model, year, fuel), failing fast on the first raiser, then stores the
fields and the generated vin (`uuid.uuid4()`, threaded as `vin`). -/
def Vehicle.init (current_year : Int) (vin brand model : String) (year : Int)
    (fuel_type : String) : Except String VehicleId := do
  _ ← validate_nonempty brand "Brand"
  _ ← validate_nonempty model "Model"
  _ ← validate_year current_year year
  _ ← validate_fuel fuel_type
  .ok ⟨brand, model, year, fuel_type, vin⟩

/-- `Vehicle.__str__`: used by every mixin/ride message through `{self}`. -/
def VehicleId.str (v : VehicleId) : String :=
  toString v.year ++ " " ++ v.brand ++ " " ++ v.model ++ " (" ++ v.fuel_type ++ ")"

-- ----------------------------- Mixin -----------------------------

/-- The movement state set by `vehicleMixin.__init__`: `_speed = 0` (int)
and `__odometer = 0` (int). -/
structure MixinState where
  speed : Int
  odometer : PyNum
deriving DecidableEq

/-- `vehicleMixin.__init__`. -/
def MixinState.init : MixinState := ⟨0, .int 0⟩

/-- `vehicleMixin.accelerate`: raises on `speed <= 0`, else adds to speed.
Returns `None` (unit) on success. -/
def MixinState.accelerate (st : MixinState) (speed : Int) :
    MixinState × Except String Unit :=
  if speed ≤ 0 then (st, .error "Speed cant be negative")
  else ({ st with speed := st.speed + speed }, .ok ())

/-- `vehicleMixin.brake`: sets speed to 0 and returns a message built from
`str(self)` (passed as `selfStr`). -/
def MixinState.brake (st : MixinState) (selfStr : String) : MixinState × String :=
  ({ st with speed := 0 }, selfStr ++ " stopped.")

/-- `vehicleMixin.drive`: raises on `distance <= 0`, else adds the distance
to the odometer and returns the running-total message. -/
def MixinState.drive (st : MixinState) (selfStr : String) (distance : PyNum) :
    MixinState × Except String String :=
  if distance.toRat ≤ 0 then (st, .error "Distance must be greater than zero.")
  else
    let od := st.odometer.add distance
    ({ st with odometer := od },
     .ok (selfStr ++ " drove " ++ distance.pyStr ++ " km. Total: " ++ od.pyStr ++ " km"))

-- ----------------------------- Motorcycle -----------------------------

/-- A `Motorcycle` object: identity, movement state, engine, sidecar flag,
helmet flag (fixed `True` at construction). -/
structure Motorcycle where
  id : VehicleId
  mixin : MixinState
  engine : Engine
  has_sidecar : Bool
  helmet_required : Bool
deriving DecidableEq

/-- `Motorcycle.__init__`: `Vehicle.__init__` (may raise), then
`vehicleMixin.__init__`, then the kind-specific fields (`has_sidecar`
defaults to `False` at the call sites of interest; it is passed explicitly
here). -/
def Motorcycle.init (current_year : Int) (vin brand model : String) (year : Int)
    (fuel_type : String) (engine : Engine) (has_sidecar : Bool) :
    Except String Motorcycle := do
  let v ← Vehicle.init current_year vin brand model year fuel_type
  .ok ⟨v, MixinState.init, engine, has_sidecar, true⟩

/-- `Motorcycle.accelerate` (inherited from the mixin). -/
def Motorcycle.accelerate (m : Motorcycle) (speed : Int) :
    Motorcycle × Except String Unit :=
  let r := m.mixin.accelerate speed
  ({ m with mixin := r.1 }, r.2)

/-- `Motorcycle.brake` (inherited from the mixin; `{self}` is `str(self)`). -/
def Motorcycle.brake (m : Motorcycle) : Motorcycle × String :=
  let r := m.mixin.brake m.id.str
  ({ m with mixin := r.1 }, r.2)

/-- `Motorcycle.drive` (inherited from the mixin). -/
def Motorcycle.drive (m : Motorcycle) (distance : PyNum) :
    Motorcycle × Except String String :=
  let r := m.mixin.drive m.id.str distance
  ({ m with mixin := r.1 }, r.2)

/-- `Motorcycle.ride`: raises on `km <= 0`; otherwise `accelerate(60)`,
then `drive(km)` (either raise propagates with the state reached so far),
then returns the ride summary built from the updated odometer. -/
def Motorcycle.ride (m : Motorcycle) (km : PyNum) : Motorcycle × Except String String :=
  if km.toRat ≤ 0 then (m, .error "Distance must be greater than zero.")
  else
    let r1 := m.accelerate 60
    match r1.2 with
    | .error e => (r1.1, .error e)
    | .ok _ =>
      let r2 := r1.1.drive km
      match r2.2 with
      | .error e => (r2.1, .error e)
      | .ok _ =>
        (r2.1, .ok (r2.1.id.str ++ " rode " ++ km.pyStr ++ " km. Total: "
          ++ r2.1.mixin.odometer.pyStr ++ " km"))

/-- `Motorcycle.attach_sidecar`: reports already-attached and changes
nothing when the flag is set, else sets it and reports success. -/
def Motorcycle.attach_sidecar (m : Motorcycle) : Motorcycle × String :=
  if m.has_sidecar then (m, "Sidecar already attached.")
  else ({ m with has_sidecar := true }, "Sidecar successfully attached.")

-- ----------------------------- Bus -----------------------------

/-- A `Bus` object: identity, movement state, color, capacity (stored with
no validation), engine, and the passenger roster (starts empty). -/
structure Bus where
  id : VehicleId
  mixin : MixinState
  color : String
  capacity : Int
  engine : Engine
  passengers : List String
deriving DecidableEq

/-- `Bus.__init__`: `Vehicle.__init__` (may raise), then the mixin init and
the kind-specific fields; `capacity` is stored as given, unchecked. -/
def Bus.init (current_year : Int) (vin brand model : String) (year : Int)
    (fuel_type color : String) (capacity : Int) (engine : Engine) :
    Except String Bus := do
  let v ← Vehicle.init current_year vin brand model year fuel_type
  .ok ⟨v, MixinState.init, color, capacity, engine, []⟩

/-- `Bus.add_passenger`: appends when `len(passengers) < capacity` and
reports boarding, else reports the bus is full and leaves the roster
alone (both are returned results, never raises). -/
def Bus.add_passenger (b : Bus) (name : String) : Bus × String :=
  if (b.passengers.length : Int) < b.capacity then
    ({ b with passengers := b.passengers ++ [name] }, name ++ " ავიდა ავტობუსში")
  else
    (b, "ავტობუსი სავსეა!")

/-- `Bus.brake` (inherited from the mixin). -/
def Bus.brake (b : Bus) : Bus × String :=
  let r := b.mixin.brake b.id.str
  ({ b with mixin := r.1 }, r.2)

/-- A sequence of `add_passenger` calls, keeping only the object states. -/
def Bus.addAll (b : Bus) (names : List String) : Bus :=
  names.foldl (fun b n => (b.add_passenger n).1) b

-- ----------------------------- Car / SportsCar -----------------------------

/-- A `Car` object. -/
structure Car where
  id : VehicleId
  mixin : MixinState
  engine : Engine
  color : String
  num_doors : Int
  license_plate : String
deriving DecidableEq

/-- `Car.brake` (inherited from the mixin). -/
def Car.brake (c : Car) : Car × String :=
  let r := c.mixin.brake c.id.str
  ({ c with mixin := r.1 }, r.2)

/-- A `SportsCar` object: all Car fields plus turbo flag, gear (starts 1)
and optional spoiler (starts `None`). -/
structure SportsCar where
  id : VehicleId
  mixin : MixinState
  engine : Engine
  color : String
  num_doors : Int
  license_plate : String
  turbo_enabled : Bool
  gear : Int
  spoiler : Option String
deriving DecidableEq

/-- The `spoiler_types` set of `SportsCar` (membership only). -/
def spoiler_types : List String := ["lip", "wing", "active"]

/-- `SportsCar.accelerate` (inherited from the mixin through Car). -/
def SportsCar.accelerate (s : SportsCar) (speed : Int) :
    SportsCar × Except String Unit :=
  let r := s.mixin.accelerate speed
  ({ s with mixin := r.1 }, r.2)

/-- `SportsCar.brake` (inherited from the mixin through Car). -/
def SportsCar.brake (s : SportsCar) : SportsCar × String :=
  let r := s.mixin.brake s.id.str
  ({ s with mixin := r.1 }, r.2)

/-- `SportsCar.drive` (inherited from the mixin through Car). -/
def SportsCar.drive (s : SportsCar) (distance : PyNum) :
    SportsCar × Except String String :=
  let r := s.mixin.drive s.id.str distance
  ({ s with mixin := r.1 }, r.2)

/-- `SportsCar.shift_gear`: raises when `gear < 1 or gear > 6`, else sets
the gear and prints the notification (modelled as the returned string). -/
def SportsCar.shift_gear (s : SportsCar) (gear : Int) :
    SportsCar × Except String String :=
  if gear < 1 ∨ gear > 6 then (s, .error "Gear must be between 1 and 6.")
  else ({ s with gear := gear }, .ok ("Gear shifted to " ++ toString gear))

/-- `SportsCar.set_spoiler`: raises when the kind is not in
`spoiler_types`, else sets the spoiler and prints the notification
(modelled as the returned string). -/
def SportsCar.set_spoiler (s : SportsCar) (spoiler : String) :
    SportsCar × Except String String :=
  if spoiler ∉ spoiler_types then
    (s, .error "Invalid spoiler. Choose from: [lip, wing, active]")
  else
    ({ s with spoiler := some spoiler }, .ok ("Spoiler set to: " ++ spoiler))

-- ----------------------------- Production counter -----------------------------

/-- Which concrete class a constructed instance has (`self.__class__` in
`Car.__init__`). -/
inductive CarKind where
  | car : CarKind
  | sportsCar : CarKind
deriving DecidableEq

/-- The class attributes holding `model_produced`: `Car.model_produced`
always exists (initialised to 0 at class creation); `SportsCar` has no own
`model_produced` until an assignment through `SportsCar` creates a
shadowing class attribute, so it starts as `none`. -/
structure CounterState where
  car_model_produced : Int
  sports_model_produced : Option Int
deriving DecidableEq

/-- Process start: `Car.model_produced = 0`, no SportsCar shadow. -/
def CounterState.init : CounterState := ⟨0, none⟩

/-- Reading `SportsCar.model_produced`: Python attribute lookup returns the
shadowing attribute when present, else falls back to `Car.model_produced`
along the MRO. -/
def CounterState.readSports (s : CounterState) : Int :=
  match s.sports_model_produced with
  | some v => v
  | none => s.car_model_produced

/-- `self.__class__.model_produced += 1` in `Car.__init__`: for a `Car`
instance it updates `Car.model_produced`; for a `SportsCar` instance it
reads through the MRO and assigns the result to `SportsCar.model_produced`,
creating/overwriting the shadow and leaving `Car.model_produced` alone. -/
def CounterState.construct (s : CounterState) (k : CarKind) : CounterState :=
  match k with
  | .car => { s with car_model_produced := s.car_model_produced + 1 }
  | .sportsCar => { s with sports_model_produced := some (s.readSports + 1) }

/-- A whole sequence of Car/SportsCar constructions from process start. -/
def constructSeq (ks : List CarKind) : CounterState :=
  ks.foldl CounterState.construct CounterState.init

/-- The number of exact-`Car` constructions in a sequence. -/
def numCars : List CarKind → Int
  | [] => 0
  | CarKind.car :: ks => numCars ks + 1
  | CarKind.sportsCar :: ks => numCars ks

-- ----------------------------- Concrete example objects -----------------------------

/-- `Engine(120, "4-stroke")` from the example scenario. -/
def yamahaEngine : Engine := ⟨120, "4-stroke"⟩

/-- The `Motorcycle("Yamaha", "MT-09", 2023, "petrol", engine)` of the
example scenario, as built by a successful construction (vin threaded). -/
def yamahaMoto : Motorcycle :=
  ⟨⟨"Yamaha", "MT-09", 2023, "petrol", "VIN-1"⟩, MixinState.init, yamahaEngine, false, true⟩

/-- A freshly constructed SportsCar (gear 1, no turbo, no spoiler). -/
def ferrari : SportsCar :=
  ⟨⟨"Ferrari", "488 GTB", 2020, "petrol", "VIN-S"⟩, MixinState.init,
    ⟨320, "4-stroke"⟩, "Red", 2, "SPD-488", false, 1, none⟩

/-- A freshly constructed Bus with capacity 1 (the capacity scenario). -/
def demoBus : Bus :=
  ⟨⟨"MAN", "Lions City", 2017, "diesel", "VIN-B"⟩, MixinState.init,
    "Blue", 1, ⟨280, "4-stroke"⟩, []⟩

/-- A freshly constructed Bus whose (unvalidated) capacity is `-1`. -/
def negBus : Bus :=
  ⟨⟨"MAN", "TGE Minibus", 2025, "diesel", "VIN-N"⟩, MixinState.init,
    "Black", -1, ⟨102, "4-stroke"⟩, []⟩

-- ----------------------------- Helper lemmas -----------------------------

theorem foldl_construct_car (ks : List CarKind) (s : CounterState) :
    (ks.foldl CounterState.construct s).car_model_produced
      = s.car_model_produced + numCars ks := by
  induction ks generalizing s with
  | nil => simp [numCars]
  | cons k ks ih =>
    cases k
    · simp only [List.foldl, ih, numCars, CounterState.construct]
      omega
    · simp only [List.foldl, ih, numCars, CounterState.construct]

theorem add_passenger_fields (b : Bus) (n : String) :
    ((b.add_passenger n).1).capacity = b.capacity
      ∧ ((b.add_passenger n).1).id = b.id
      ∧ ((b.add_passenger n).1).mixin = b.mixin := by
  simp only [Bus.add_passenger]
  split <;> exact ⟨rfl, rfl, rfl⟩

theorem addAll_capacity (names : List String) (b : Bus) :
    (b.addAll names).capacity = b.capacity := by
  induction names generalizing b with
  | nil => rfl
  | cons n ns ih =>
    show ((b.add_passenger n).1.addAll ns).capacity = b.capacity
    rw [ih, (add_passenger_fields b n).1]

theorem addAll_passengers (names : List String) (b : Bus) :
    (b.addAll names).passengers
      = b.passengers ++ names.take ((b.capacity - b.passengers.length).toNat) := by
  induction names generalizing b with
  | nil => simp [Bus.addAll]
  | cons n ns ih =>
    by_cases h : (b.passengers.length : Int) < b.capacity
    · have hstep : b.addAll (n :: ns)
          = Bus.addAll { b with passengers := b.passengers ++ [n] } ns := by
        show ((b.add_passenger n).1.addAll ns) = _
        rw [Bus.add_passenger, if_pos h]
      rw [hstep, ih]
      simp only [List.append_assoc, List.length_append, List.length_cons,
        List.length_nil]
      have h1 : (b.capacity - b.passengers.length).toNat
          = (b.capacity - (b.passengers.length + (0 + 1))).toNat + 1 := by omega
      rw [h1, List.take_succ_cons]
      simp
    · have hstep : b.addAll (n :: ns) = b.addAll ns := by
        show ((b.add_passenger n).1.addAll ns) = _
        rw [Bus.add_passenger, if_neg h]
      rw [hstep, ih]
      have h0 : (b.capacity - b.passengers.length).toNat = 0 := by omega
      rw [h0]
      simp

-- ----------------------------- Claim theorems -----------------------------

/-- C1: the claim says `Car.model_produced` counts every Car and SportsCar
construction, so 2 Cars and 1 SportsCar should leave it at 3. In the code
`self.__class__.model_produced += 1` run for a SportsCar instance writes a
shadowing `SportsCar.model_produced` class attribute instead of updating
`Car.model_produced`: after 2 Cars and 1 SportsCar, `Car.model_produced`
is 2, not 3 (and in general it equals the number of exact-`Car`
constructions only). -/
theorem car_counter_misses_subclass_instances :
    (constructSeq [CarKind.car, CarKind.car, CarKind.sportsCar]).car_model_produced = 2
    ∧ (constructSeq [CarKind.car, CarKind.car, CarKind.sportsCar]).car_model_produced ≠ 3
    ∧ (constructSeq [CarKind.car, CarKind.car, CarKind.sportsCar]).readSports = 3
    ∧ ∀ ks : List CarKind, (constructSeq ks).car_model_produced = numCars ks := by
  refine ⟨by decide, by decide, by decide, fun ks => ?_⟩
  have h := foldl_construct_car ks CounterState.init
  simpa [constructSeq, CounterState.init] using h

/-- C2 counterexample: the claim says the summary of `ride(100)` on the
fresh Yamaha contains `"Total: 100.0 km"`. The call is made with the
integer 100, the odometer becomes the integer 100, and the f-string
renders it without a decimal point: the summary is
`"... rode 100 km. Total: 100 km"` and does not contain the claimed
substring. -/
theorem ride_summary_decimal_counterexample :
    Engine.init 120 "4-stroke" = .ok yamahaEngine
    ∧ Motorcycle.init 2026 "VIN-1" "Yamaha" "MT-09" 2023 "petrol" yamahaEngine false
        = .ok yamahaMoto
    ∧ (yamahaMoto.ride (.int 100)).2
        = .ok "2023 Yamaha MT-09 (petrol) rode 100 km. Total: 100 km"
    ∧ containsSub "2023 Yamaha MT-09 (petrol) rode 100 km. Total: 100 km" "Total: 100.0 km"
        = false :=
  ⟨rfl, rfl, rfl, by decide⟩

/-- C2 (amended): `ride(km)` raises on `km <= 0` and otherwise performs
`accelerate(60)` then `drive(km)` and returns a summary containing the
total odometer; on the fresh Yamaha, `ride(100)` leaves speed 60 and
odometer 100 (the integer, numerically equal to 100.0), and the summary
contains `"rode 100 km"` and `"Total: 100 km"` (no decimal point, the
odometer being an int). -/
theorem ride_spec_amended :
    (∀ (m : Motorcycle) (km : PyNum), km.toRat ≤ 0 →
        m.ride km = (m, .error "Distance must be greater than zero."))
    ∧ (∀ (m : Motorcycle) (km : PyNum), 0 < km.toRat →
        m.ride km
          = (((m.accelerate 60).1.drive km).1,
             .ok ((((m.accelerate 60).1.drive km).1.id.str) ++ " rode " ++ km.pyStr
               ++ " km. Total: "
               ++ (((m.accelerate 60).1.drive km).1.mixin.odometer.pyStr) ++ " km")))
    ∧ Engine.init 120 "4-stroke" = .ok yamahaEngine
    ∧ (∀ cy : Int, 2023 ≤ cy →
        Motorcycle.init cy "VIN-1" "Yamaha" "MT-09" 2023 "petrol" yamahaEngine false
          = .ok yamahaMoto)
    ∧ (yamahaMoto.ride (.int 100)).1.mixin.speed = 60
    ∧ (yamahaMoto.ride (.int 100)).1.mixin.odometer = .int 100
    ∧ (yamahaMoto.ride (.int 100)).1.mixin.odometer.toRat = 100
    ∧ (yamahaMoto.ride (.int 100)).2
        = .ok "2023 Yamaha MT-09 (petrol) rode 100 km. Total: 100 km"
    ∧ containsSub "2023 Yamaha MT-09 (petrol) rode 100 km. Total: 100 km" "rode 100 km"
        = true
    ∧ containsSub "2023 Yamaha MT-09 (petrol) rode 100 km. Total: 100 km" "Total: 100 km"
        = true := by
  refine ⟨fun m km h => ?_, fun m km h => ?_, rfl, fun cy hcy => ?_,
    rfl, rfl, rfl, rfl, by decide, by decide⟩
  · rw [Motorcycle.ride, if_pos h]
  · have h1 : ¬ km.toRat ≤ 0 := not_le.mpr h
    have h60 : ¬ (60 : Int) ≤ 0 := by norm_num
    simp only [Motorcycle.ride, Motorcycle.accelerate, Motorcycle.drive,
      MixinState.accelerate, MixinState.drive, if_neg h1, if_neg h60]
  · have e3 : validate_year cy 2023 = .ok () := by
      rw [validate_year, if_neg (not_not_intro ⟨by norm_num, hcy⟩)]
    simp only [Motorcycle.init, Vehicle.init, e3]
    rfl

/-- C2 witness: the amended theorem applied at `ride(0)` (raises),
`ride(100)` on the fresh Yamaha (accelerate-then-drive shape), and the
construction with current year 2026. -/
theorem ride_spec_amended_witness :
    ((PyNum.int 0).toRat ≤ 0
      ∧ yamahaMoto.ride (.int 0)
          = (yamahaMoto, .error "Distance must be greater than zero."))
    ∧ (0 < (PyNum.int 100).toRat
      ∧ yamahaMoto.ride (.int 100)
          = (((yamahaMoto.accelerate 60).1.drive (.int 100)).1,
             .ok ((((yamahaMoto.accelerate 60).1.drive (.int 100)).1.id.str)
               ++ " rode " ++ (PyNum.int 100).pyStr ++ " km. Total: "
               ++ (((yamahaMoto.accelerate 60).1.drive (.int 100)).1.mixin.odometer.pyStr)
               ++ " km")))
    ∧ ((2023 : Int) ≤ 2026
      ∧ Motorcycle.init 2026 "VIN-1" "Yamaha" "MT-09" 2023 "petrol" yamahaEngine false
          = .ok yamahaMoto) :=
  ⟨⟨by decide, ride_spec_amended.1 yamahaMoto (.int 0) (by decide)⟩,
   ⟨by decide, ride_spec_amended.2.1 yamahaMoto (.int 100) (by decide)⟩,
   ⟨by decide, ride_spec_amended.2.2.2.1 2026 (by decide)⟩⟩

/-- C3: Vehicle construction fails fast with the error of the first
invalid field in the fixed order brand, model, year, fuel, and succeeds
with exactly the given fields when all four checks pass. -/
theorem vehicle_validation_order (cy : Int) (vin brand model : String) (year : Int)
    (fuel : String) :
    (brand = "" → Vehicle.init cy vin brand model year fuel
        = .error "Brand cannot be empty.")
    ∧ (brand ≠ "" → model = "" → Vehicle.init cy vin brand model year fuel
        = .error "Model cannot be empty.")
    ∧ (brand ≠ "" → model ≠ "" → ¬ (1900 ≤ year ∧ year ≤ cy) →
        Vehicle.init cy vin brand model year fuel = .error "Invalid year.")
    ∧ (brand ≠ "" → model ≠ "" → (1900 ≤ year ∧ year ≤ cy) → fuel ∉ validFuelTypes →
        Vehicle.init cy vin brand model year fuel
          = .error "Invalid fuel type. Choose from: [petrol, diesel, electric]")
    ∧ (brand ≠ "" → model ≠ "" → (1900 ≤ year ∧ year ≤ cy) → fuel ∈ validFuelTypes →
        Vehicle.init cy vin brand model year fuel = .ok ⟨brand, model, year, fuel, vin⟩) := by
  refine ⟨fun h1 => ?_, fun h1 h2 => ?_, fun h1 h2 h3 => ?_, fun h1 h2 h3 h4 => ?_,
    fun h1 h2 h3 h4 => ?_⟩
  · subst h1
    rfl
  · have e1 : validate_nonempty brand "Brand" = .ok () := by
      rw [validate_nonempty, if_neg h1]
    subst h2
    simp only [Vehicle.init, e1]
    rfl
  · have e1 : validate_nonempty brand "Brand" = .ok () := by
      rw [validate_nonempty, if_neg h1]
    have e2 : validate_nonempty model "Model" = .ok () := by
      rw [validate_nonempty, if_neg h2]
    have e3 : validate_year cy year = .error "Invalid year." := by
      rw [validate_year, if_pos h3]
    simp only [Vehicle.init, e1, e2, e3]
    rfl
  · have e1 : validate_nonempty brand "Brand" = .ok () := by
      rw [validate_nonempty, if_neg h1]
    have e2 : validate_nonempty model "Model" = .ok () := by
      rw [validate_nonempty, if_neg h2]
    have e3 : validate_year cy year = .ok () := by
      rw [validate_year, if_neg (not_not_intro h3)]
    have e4 : validate_fuel fuel
        = .error "Invalid fuel type. Choose from: [petrol, diesel, electric]" := by
      rw [validate_fuel, if_pos (by simpa using h4)]
    simp only [Vehicle.init, e1, e2, e3, e4]
    rfl
  · have e1 : validate_nonempty brand "Brand" = .ok () := by
      rw [validate_nonempty, if_neg h1]
    have e2 : validate_nonempty model "Model" = .ok () := by
      rw [validate_nonempty, if_neg h2]
    have e3 : validate_year cy year = .ok () := by
      rw [validate_year, if_neg (not_not_intro h3)]
    have e4 : validate_fuel fuel = .ok () := by
      rw [validate_fuel, if_neg (by simpa using h4)]
    simp only [Vehicle.init, e1, e2, e3, e4]
    rfl

/-- C3 witness: the theorem applied at an empty brand, an empty model, an
out-of-range year, an invalid fuel, and an all-valid construction. -/
theorem vehicle_validation_order_witness :
    Vehicle.init 2026 "V" "" "M3" 2022 "petrol" = .error "Brand cannot be empty."
    ∧ ("BMW" ≠ ""
      ∧ Vehicle.init 2026 "V" "BMW" "" 2022 "petrol" = .error "Model cannot be empty.")
    ∧ (¬ ((1900 : Int) ≤ 1800 ∧ (1800 : Int) ≤ 2026)
      ∧ Vehicle.init 2026 "V" "BMW" "M3" 1800 "petrol" = .error "Invalid year.")
    ∧ ("plasma" ∉ validFuelTypes
      ∧ Vehicle.init 2026 "V" "BMW" "M3" 2022 "plasma"
          = .error "Invalid fuel type. Choose from: [petrol, diesel, electric]")
    ∧ ("petrol" ∈ validFuelTypes
      ∧ Vehicle.init 2026 "V" "BMW" "M3" 2022 "petrol"
          = .ok ⟨"BMW", "M3", 2022, "petrol", "V"⟩) :=
  ⟨(vehicle_validation_order 2026 "V" "" "M3" 2022 "petrol").1 rfl,
   ⟨by decide, (vehicle_validation_order 2026 "V" "BMW" "" 2022 "petrol").2.1
      (by decide) rfl⟩,
   ⟨by decide, (vehicle_validation_order 2026 "V" "BMW" "M3" 1800 "petrol").2.2.1
      (by decide) (by decide) (by decide)⟩,
   ⟨by decide, (vehicle_validation_order 2026 "V" "BMW" "M3" 2022 "plasma").2.2.2.1
      (by decide) (by decide) (by decide) (by decide)⟩,
   ⟨by decide, (vehicle_validation_order 2026 "V" "BMW" "M3" 2022 "petrol").2.2.2.2
      (by decide) (by decide) (by decide) (by decide)⟩⟩

/-- C4: `add_passenger` appends at the end of the roster and reports
boarding exactly when `len(passengers) < capacity`, otherwise reports the
bus is full without raising and leaves the roster unchanged; from an empty
roster with capacity `c >= 0` the roster after any sequence of adds is the
first `c` names in order (duplicates permitted), so its length never
exceeds `c`, the first `c` adds succeed and the `(c+1)`-th is the first to
fail. -/
theorem bus_add_passenger_spec (b : Bus) (name : String) :
    ((b.passengers.length : Int) < b.capacity →
        b.add_passenger name
          = ({ b with passengers := b.passengers ++ [name] }, name ++ " ავიდა ავტობუსში"))
    ∧ (b.capacity ≤ (b.passengers.length : Int) →
        b.add_passenger name = (b, "ავტობუსი სავსეა!"))
    ∧ (b.passengers = [] → 0 ≤ b.capacity →
        ∀ names : List String,
          (b.addAll names).passengers = names.take b.capacity.toNat
          ∧ ((b.addAll names).passengers.length : Int) ≤ b.capacity)
    ∧ (b.passengers = [] → 0 ≤ b.capacity →
        ∀ names : List String,
          ((names.length : Int) < b.capacity →
            ((b.addAll names).add_passenger name).2 = name ++ " ავიდა ავტობუსში")
          ∧ (b.capacity ≤ (names.length : Int) →
            ((b.addAll names).add_passenger name).2 = "ავტობუსი სავსეა!"
            ∧ ((b.addAll names).add_passenger name).1 = b.addAll names)) := by
  have key : ∀ names : List String, b.passengers = [] →
      (b.addAll names).passengers = names.take (b.capacity.toNat) := by
    intro names hp
    have h := addAll_passengers names b
    rw [hp] at h
    simpa using h
  refine ⟨fun h => ?_, fun h => ?_, fun hp hc names => ?_, fun hp hc names => ?_⟩
  · rw [Bus.add_passenger, if_pos h]
  · rw [Bus.add_passenger, if_neg (not_lt.mpr h)]
  · refine ⟨key names hp, ?_⟩
    rw [key names hp]
    have := List.length_take (b.capacity.toNat) names
    omega
  · have hcap := addAll_capacity names b
    have hlen : (b.addAll names).passengers.length = min b.capacity.toNat names.length := by
      rw [key names hp, List.length_take]
    constructor
    · intro hlt
      have : ((b.addAll names).passengers.length : Int) < (b.addAll names).capacity := by
        rw [hcap, hlen]
        omega
      rw [Bus.add_passenger, if_pos this]
    · intro hge
      have : ¬ ((b.addAll names).passengers.length : Int) < (b.addAll names).capacity := by
        rw [hcap, hlen]
        omega
      rw [Bus.add_passenger, if_neg this]
      exact ⟨rfl, rfl⟩

/-- C4 witness: the theorem applied to the capacity-1 bus: the first add
succeeds and appends, the second reports full and leaves the roster
`["A"]`, and the roster after any two adds is the first name only. -/
theorem bus_add_passenger_spec_witness :
    ((demoBus.passengers.length : Int) < demoBus.capacity
      ∧ demoBus.add_passenger "A"
          = ({ demoBus with passengers := demoBus.passengers ++ ["A"] },
             "A ავიდა ავტობუსში"))
    ∧ ((demoBus.add_passenger "A").1.capacity
          ≤ (((demoBus.add_passenger "A").1).passengers.length : Int)
      ∧ (demoBus.add_passenger "A").1.add_passenger "B"
          = ((demoBus.add_passenger "A").1, "ავტობუსი სავსეა!"))
    ∧ (demoBus.passengers = [] ∧ (0 : Int) ≤ demoBus.capacity
      ∧ (demoBus.addAll ["A", "B"]).passengers
          = (["A", "B"] : List String).take demoBus.capacity.toNat
      ∧ ((demoBus.addAll ["A", "B"]).passengers.length : Int) ≤ demoBus.capacity
      ∧ (demoBus.capacity ≤ ((["A", "B"] : List String).length : Int)
        ∧ ((demoBus.addAll ["A", "B"]).add_passenger "C").2 = "ავტობუსი სავსეა!"
        ∧ ((demoBus.addAll ["A", "B"]).add_passenger "C").1 = demoBus.addAll ["A", "B"])) :=
  ⟨⟨by decide, (bus_add_passenger_spec demoBus "A").1 (by decide)⟩,
   ⟨by decide, (bus_add_passenger_spec ((demoBus.add_passenger "A").1) "B").2.1 (by decide)⟩,
   ⟨rfl, by decide,
    ((bus_add_passenger_spec demoBus "C").2.2.1 rfl (by decide) ["A", "B"]).1,
    ((bus_add_passenger_spec demoBus "C").2.2.1 rfl (by decide) ["A", "B"]).2,
    ⟨by decide,
     ((bus_add_passenger_spec demoBus "C").2.2.2 rfl (by decide) ["A", "B"]).2 (by decide)⟩⟩⟩

/-- C9: Bus construction stores any capacity value unchecked (0 and
negative included) as long as the identity fields validate; with capacity
`<= 0` every `add_passenger` reports the bus is full and the roster stays
empty. -/
theorem bus_capacity_unvalidated (cy : Int) (vin brand model : String) (year : Int)
    (fuel color : String) (cap : Int) (eng : Engine) :
    (brand ≠ "" → model ≠ "" → 1900 ≤ year → year ≤ cy → fuel ∈ validFuelTypes →
        Bus.init cy vin brand model year fuel color cap eng
          = .ok ⟨⟨brand, model, year, fuel, vin⟩, MixinState.init, color, cap, eng, []⟩)
    ∧ (∀ b : Bus, b.capacity ≤ 0 → b.passengers = [] →
        ∀ names : List String,
          (b.addAll names).passengers = []
          ∧ ∀ name : String,
              ((b.addAll names).add_passenger name).2 = "ავტობუსი სავსეა!"
              ∧ ((b.addAll names).add_passenger name).1 = b.addAll names) := by
  constructor
  · intro h1 h2 h3 h4 h5
    have e1 : validate_nonempty brand "Brand" = .ok () := by
      rw [validate_nonempty, if_neg h1]
    have e2 : validate_nonempty model "Model" = .ok () := by
      rw [validate_nonempty, if_neg h2]
    have e3 : validate_year cy year = .ok () := by
      rw [validate_year, if_neg (not_not_intro ⟨h3, h4⟩)]
    have e4 : validate_fuel fuel = .ok () := by
      rw [validate_fuel, if_neg (by simpa using h5)]
    simp only [Bus.init, Vehicle.init, e1, e2, e3, e4]
    rfl
  · intro b hcap hpass names
    have hempty : (b.addAll names).passengers = [] := by
      have h := addAll_passengers names b
      rw [hpass] at h
      have h0 : (b.capacity - (([] : List String).length : Int)).toNat = 0 := by
        simp
        omega
      rw [h0] at h
      simpa using h
    refine ⟨hempty, fun name => ?_⟩
    have : ¬ ((b.addAll names).passengers.length : Int) < (b.addAll names).capacity := by
      rw [hempty, addAll_capacity]
      simp
      omega
    rw [Bus.add_passenger, if_neg this]
    exact ⟨rfl, rfl⟩

/-- C9 witness: the theorem applied to a bus constructed with capacity
`-1` and valid identity fields: construction succeeds and two adds then a
third all report full with an empty roster. -/
theorem bus_capacity_unvalidated_witness :
    ("MAN" ≠ "" ∧ "TGE Minibus" ≠ ""
      ∧ (1900 : Int) ≤ 2025 ∧ (2025 : Int) ≤ 2026 ∧ "diesel" ∈ validFuelTypes
      ∧ Bus.init 2026 "VIN-N" "MAN" "TGE Minibus" 2025 "diesel" "Black" (-1)
          ⟨102, "4-stroke"⟩ = .ok negBus)
    ∧ (negBus.capacity ≤ 0 ∧ negBus.passengers = []
      ∧ (negBus.addAll ["X", "Y"]).passengers = []
      ∧ ((negBus.addAll ["X", "Y"]).add_passenger "Z").2 = "ავტობუსი სავსეა!"
      ∧ ((negBus.addAll ["X", "Y"]).add_passenger "Z").1 = negBus.addAll ["X", "Y"]) :=
  ⟨⟨by decide, by decide, by decide, by decide, by decide,
    (bus_capacity_unvalidated 2026 "VIN-N" "MAN" "TGE Minibus" 2025 "diesel" "Black" (-1)
        ⟨102, "4-stroke"⟩).1 (by decide) (by decide) (by decide) (by decide) (by decide)⟩,
   ⟨by decide, rfl,
    ((bus_capacity_unvalidated 2026 "VIN-N" "MAN" "TGE Minibus" 2025 "diesel" "Black" (-1)
        ⟨102, "4-stroke"⟩).2 negBus (by decide) rfl ["X", "Y"]).1,
    (((bus_capacity_unvalidated 2026 "VIN-N" "MAN" "TGE Minibus" 2025 "diesel" "Black" (-1)
        ⟨102, "4-stroke"⟩).2 negBus (by decide) rfl ["X", "Y"]).2 "Z").1,
    (((bus_capacity_unvalidated 2026 "VIN-N" "MAN" "TGE Minibus" 2025 "diesel" "Black" (-1)
        ⟨102, "4-stroke"⟩).2 negBus (by decide) rfl ["X", "Y"]).2 "Z").2⟩⟩

/-- C5: Engine construction rejects `horsepower <= 0` with a
ValidationError naming the field, rejects an `engine_type` outside the
four-member enum with a ValidationError listing the choices, and otherwise
builds the Engine with exactly the given fields. -/
theorem engine_init_spec (hp : Int) (et : String) :
    (hp ≤ 0 → Engine.init hp et = .error "Horsepower must be positive.")
    ∧ (0 < hp → et ∉ validEngineTypes →
        Engine.init hp et
          = .error "Invalid engine type. Choose from: [2-stroke, 4-stroke, electric, diesel]")
    ∧ (0 < hp → et ∈ validEngineTypes → Engine.init hp et = .ok ⟨hp, et⟩) := by
  refine ⟨fun h => ?_, fun h1 h2 => ?_, fun h1 h2 => ?_⟩
  · rw [Engine.init, if_pos h]
  · rw [Engine.init, if_neg (not_le.mpr h1), if_pos h2]
  · rw [Engine.init, if_neg (not_le.mpr h1), if_neg (by simpa using h2)]

/-- C5 witness: `Engine.init` evaluated through the theorem at `-5`,
`(120, "rotary")` and `(120, "4-stroke")`. -/
theorem engine_init_spec_witness :
    ((-5 : Int) ≤ 0
      ∧ Engine.init (-5) "4-stroke" = .error "Horsepower must be positive.")
    ∧ ((0 : Int) < 120 ∧ "rotary" ∉ validEngineTypes
      ∧ Engine.init 120 "rotary"
          = .error "Invalid engine type. Choose from: [2-stroke, 4-stroke, electric, diesel]")
    ∧ ("4-stroke" ∈ validEngineTypes
      ∧ Engine.init 120 "4-stroke" = .ok yamahaEngine) :=
  ⟨⟨by decide, (engine_init_spec (-5) "4-stroke").1 (by decide)⟩,
   ⟨by decide, by decide, (engine_init_spec 120 "rotary").2.1 (by decide) (by decide)⟩,
   ⟨by decide, (engine_init_spec 120 "4-stroke").2.2 (by decide) (by decide)⟩⟩

/-- C6: on every vehicle kind, `brake()` sets the speed to 0 whatever it
was, returns the descriptive message built from `str(self)`, and changes
no other field (the odometer in particular): the result is exactly the
input object with only `speed` replaced by 0. -/
theorem brake_spec :
    (∀ m : Motorcycle,
      m.brake = ({ m with mixin := { m.mixin with speed := 0 } }, m.id.str ++ " stopped."))
    ∧ (∀ b : Bus,
      b.brake = ({ b with mixin := { b.mixin with speed := 0 } }, b.id.str ++ " stopped."))
    ∧ (∀ c : Car,
      c.brake = ({ c with mixin := { c.mixin with speed := 0 } }, c.id.str ++ " stopped."))
    ∧ (∀ s : SportsCar,
      s.brake = ({ s with mixin := { s.mixin with speed := 0 } }, s.id.str ++ " stopped.")) :=
  ⟨fun _ => rfl, fun _ => rfl, fun _ => rfl, fun _ => rfl⟩

/-- C7: `shift_gear(g)` raises exactly when `g` is outside `[1, 6]` and
otherwise sets the gear to `g`; in particular `shift_gear(7)` raises and
`shift_gear(3)` makes the gear 3. -/
theorem shift_gear_spec (s : SportsCar) (g : Int) :
    (g < 1 ∨ g > 6 → s.shift_gear g = (s, .error "Gear must be between 1 and 6."))
    ∧ (1 ≤ g → g ≤ 6 →
        s.shift_gear g = ({ s with gear := g }, .ok ("Gear shifted to " ++ toString g)))
    ∧ s.shift_gear 7 = (s, .error "Gear must be between 1 and 6.")
    ∧ (s.shift_gear 3).1.gear = 3 := by
  refine ⟨fun h => ?_, fun h1 h2 => ?_, ?_, ?_⟩
  · rw [SportsCar.shift_gear, if_pos h]
  · rw [SportsCar.shift_gear, if_neg (by omega)]
  · rw [SportsCar.shift_gear, if_pos (by omega)]
  · rw [SportsCar.shift_gear, if_neg (by omega)]

/-- C7 witness: the theorem applied to the fresh SportsCar at gears 7, 0
and 3. -/
theorem shift_gear_spec_witness :
    ((7 : Int) > 6
      ∧ ferrari.shift_gear 7 = (ferrari, .error "Gear must be between 1 and 6."))
    ∧ ((0 : Int) < 1
      ∧ ferrari.shift_gear 0 = (ferrari, .error "Gear must be between 1 and 6."))
    ∧ ((1 : Int) ≤ 3 ∧ (3 : Int) ≤ 6
      ∧ ferrari.shift_gear 3
          = ({ ferrari with gear := 3 }, .ok ("Gear shifted to " ++ toString (3 : Int)))) :=
  ⟨⟨by decide, (shift_gear_spec ferrari 7).1 (Or.inr (by decide))⟩,
   ⟨by decide, (shift_gear_spec ferrari 0).1 (Or.inl (by decide))⟩,
   ⟨by decide, by decide, (shift_gear_spec ferrari 3).2.1 (by decide) (by decide)⟩⟩

/-- C8: `attach_sidecar` reports already-attached and changes nothing when
the flag is set, sets the flag and reports success when it is unset, and a
second call after any first call leaves the motorcycle unchanged. -/
theorem attach_sidecar_idempotent (m : Motorcycle) :
    (m.has_sidecar = true → m.attach_sidecar = (m, "Sidecar already attached."))
    ∧ (m.has_sidecar = false →
        m.attach_sidecar
          = ({ m with has_sidecar := true }, "Sidecar successfully attached."))
    ∧ (m.attach_sidecar.1).attach_sidecar
        = (m.attach_sidecar.1, "Sidecar already attached.") := by
  refine ⟨fun h => ?_, fun h => ?_, ?_⟩
  · rw [Motorcycle.attach_sidecar, if_pos h]
  · rw [Motorcycle.attach_sidecar, if_neg (by simp [h])]
  · have hflag : (m.attach_sidecar.1).has_sidecar = true := by
      by_cases h : m.has_sidecar = true
      · rw [Motorcycle.attach_sidecar, if_pos h]
        exact h
      · rw [Motorcycle.attach_sidecar, if_neg h]
    rw [Motorcycle.attach_sidecar, if_pos hflag]

/-- C8 witness: the theorem applied to the fresh (unattached) example
motorcycle and to the motorcycle after one attach. -/
theorem attach_sidecar_idempotent_witness :
    (yamahaMoto.has_sidecar = false
      ∧ yamahaMoto.attach_sidecar
          = ({ yamahaMoto with has_sidecar := true }, "Sidecar successfully attached."))
    ∧ ((yamahaMoto.attach_sidecar.1).has_sidecar = true
      ∧ (yamahaMoto.attach_sidecar.1).attach_sidecar
          = (yamahaMoto.attach_sidecar.1, "Sidecar already attached.")) :=
  ⟨⟨by decide, (attach_sidecar_idempotent yamahaMoto).2.1 (by decide)⟩,
   ⟨by decide, ((attach_sidecar_idempotent (yamahaMoto.attach_sidecar.1)).1 (by decide))⟩⟩

/-- C10: each validating mutator checks its argument before touching any
state, so on a raise the whole object is returned exactly as it was:
`accelerate` with non-positive delta, `drive` with non-positive distance,
`shift_gear` outside `[1, 6]` and `set_spoiler` outside the 3-member set
all leave every field of the SportsCar unchanged. -/
theorem mutators_atomic_on_failure (s : SportsCar) (delta : Int) (d : PyNum)
    (g : Int) (kind : String) :
    (delta ≤ 0 → s.accelerate delta = (s, .error "Speed cant be negative"))
    ∧ (d.toRat ≤ 0 → s.drive d = (s, .error "Distance must be greater than zero."))
    ∧ (g < 1 ∨ g > 6 → s.shift_gear g = (s, .error "Gear must be between 1 and 6."))
    ∧ (kind ∉ spoiler_types →
        s.set_spoiler kind = (s, .error "Invalid spoiler. Choose from: [lip, wing, active]")) := by
  refine ⟨fun h => ?_, fun h => ?_, fun h => ?_, fun h => ?_⟩
  · show ({ s with mixin := _ }, _) = _
    rw [MixinState.accelerate, if_pos h]
  · show ({ s with mixin := _ }, _) = _
    rw [MixinState.drive, if_pos h]
  · rw [SportsCar.shift_gear, if_pos h]
  · rw [SportsCar.set_spoiler, if_pos (by simpa using h)]

/-- C10 witness: the theorem applied to the fresh SportsCar with
`accelerate(0)`, `drive(-1.0)`, `shift_gear(9)` and `set_spoiler("large")`. -/
theorem mutators_atomic_on_failure_witness :
    ((0 : Int) ≤ 0 ∧ ferrari.accelerate 0 = (ferrari, .error "Speed cant be negative"))
    ∧ ((PyNum.float (-1)).toRat ≤ 0
      ∧ ferrari.drive (.float (-1)) = (ferrari, .error "Distance must be greater than zero."))
    ∧ ((9 : Int) > 6
      ∧ ferrari.shift_gear 9 = (ferrari, .error "Gear must be between 1 and 6."))
    ∧ ("large" ∉ spoiler_types
      ∧ ferrari.set_spoiler "large"
          = (ferrari, .error "Invalid spoiler. Choose from: [lip, wing, active]")) :=
  ⟨⟨by decide, (mutators_atomic_on_failure ferrari 0 (.float (-1)) 9 "large").1 (by decide)⟩,
   ⟨by decide, (mutators_atomic_on_failure ferrari 0 (.float (-1)) 9 "large").2.1 (by decide)⟩,
   ⟨by decide, (mutators_atomic_on_failure ferrari 0 (.float (-1)) 9 "large").2.2.1
      (Or.inr (by decide))⟩,
   ⟨by decide, (mutators_atomic_on_failure ferrari 0 (.float (-1)) 9 "large").2.2.2
      (by decide)⟩⟩

end VehiclePy
